import Mathlib

/-!
Shallow embedding of the FrightFate backend (FastAPI + SQLAlchemy), covering
the code that the specification's claims are about:

* `app/services/ai_service.py`: the fallback answer scorer, the instant-death
  decision, the choice-pattern classifier, initial-scenario generation with
  fallback, final-results generation with fallback.
* `app/routes/game.py`: the `submit_answer` route's state transition
  (elimination gate, upsert of `PlayerAnswer` rows) and the `get_results`
  route's result assembly.
* `app/routes/websocket.py`: the `ConnectionManager` (connect, disconnect,
  send_to_session).

Modelling conventions: Python ints are `Int` (scores may go negative before
clamping), Python float arithmetic on integer inputs (the running average in
`_analyze_choice_pattern`) is modelled exactly with `ℚ`, dictionaries parsed
from oracle (LLM) JSON are records of `Option` fields (`none` = key absent),
the oracle call itself is an explicit input (`Option`/parsed value = success,
`none` = any exception, timeout or missing JSON, which the source catches),
and a raised exception that escapes a function is `Except.error`. The
`player_answers` table maps no `is_eliminated`/`elimination_reason` columns
(`models/game.py` lines 43-55), so `AnswerRec` carries only the mapped
columns: the transient attributes the routes `setattr` are not persisted,
and the insert of a flagged `answer_data` is the unhandled `TypeError` it
raises in the source.
-/

namespace FrightFate

/-! ### Case-insensitive substring matching (Python `word in answer.lower()`) -/

/-- Python's substring test `needle in hay`, on exploded character lists
(`s1 in s2` is true iff `needle` occurs contiguously in `hay`). -/
def containsSub (hay needle : List Char) : Bool :=
  match hay with
  | [] => needle.isEmpty
  | c :: t => needle.isPrefixOf (c :: t) || containsSub t needle

/-- `answer.lower()`: character-wise lowercasing (all keywords are ASCII). -/
def pyLower (s : String) : List Char :=
  s.data.map Char.toLower

/-! ### `AIService._fallback_death_analysis` keyword scoring -/

/-- `reckless_keywords` from `_fallback_death_analysis`. -/
def recklessKeywords : List String :=
  ["run", "charge", "attack", "rush", "fast", "immediately", "grab", "fight",
   "scream", "panic"]

/-- `cautious_keywords` from `_fallback_death_analysis`. -/
def cautiousKeywords : List String :=
  ["carefully", "slowly", "quietly", "observe", "listen", "plan", "strategy",
   "safe", "caution"]

/-- `sum(10 for word in kws if word in answer_lower)`: ten points per distinct
keyword of `kws` occurring in the lowercased answer. -/
def keywordScore (ansLower : List Char) (kws : List String) : Int :=
  10 * ((kws.filter (fun w => containsSub ansLower w.data)).length : Int)

/-- `base_score` of `_fallback_death_analysis`:
`max(0, min(100, 50 + cautious_score - reckless_score))`. -/
def fallbackScore (answer : String) : Int :=
  let ansLower := pyLower answer
  let recklessScore := keywordScore ansLower recklessKeywords
  let cautiousScore := keywordScore ansLower cautiousKeywords
  max 0 (min 100 (50 + cautiousScore - recklessScore))

/-! ### Death-risk levels and the instant-death decision -/

/-- The `death_risk_level` values a scenario can carry
(`"low" | "medium" | "high" | "instant"`). -/
inductive DeathRisk where
  | low
  | medium
  | high
  | instant
  deriving DecidableEq, Repr

/-- The instant-death decision of `_fallback_death_analysis` (the sequential
`if`/`elif` chain on `death_risk`, `previous_poor_choices` and `base_score`). -/
def fallbackInstantDeath (risk : DeathRisk) (priorPoor : Nat) (score : Int) : Bool :=
  if risk = DeathRisk.instant && score < 40 then true
  else if risk = DeathRisk.high && 2 ≤ priorPoor && score < 30 then true
  else if 3 ≤ priorPoor && score < 25 then true
  else false

/-- The analysis record the routes consume: the fields of the JSON object that
`analyze_answer_with_death_check` guarantees to be present. -/
structure Analysis where
  survival_score : Int
  instant_death : Bool
  death_reason : Option String
  choice_classification : String
  deriving DecidableEq, Repr

/-- An analysis object as parsed from the oracle's JSON: every key may be
absent (`analysis.get(key, default)` in the source supplies the default). -/
structure ParsedAnalysis where
  survival_score : Option Int
  instant_death : Option Bool
  death_reason : Option String
  choice_classification : Option String
  deriving DecidableEq, Repr

/-- The oracle-path validation of `analyze_answer_with_death_check`
(lines 257-262): clamp `survival_score` into `[0, 100]`, default
`instant_death` to `False` and `choice_classification` to `"neutral"`;
`death_reason` is passed through untouched. -/
def validateAnalysis (p : ParsedAnalysis) : Analysis :=
  { survival_score := max 0 (min 100 (p.survival_score.getD 50))
    instant_death := p.instant_death.getD false
    death_reason := p.death_reason
    choice_classification := p.choice_classification.getD "neutral" }

/-- `_fallback_death_analysis answer death_risk previous_poor_choices`:
keyword score, then the instant-death table, then the classification. -/
def fallbackDeathAnalysis (answer : String) (risk : DeathRisk) (priorPoor : Nat) :
    Analysis :=
  let baseScore := fallbackScore answer
  let idead := fallbackInstantDeath risk priorPoor baseScore
  { survival_score := baseScore
    instant_death := idead
    death_reason :=
      if idead then some "Reckless decision-making led to immediate danger" else none
    choice_classification :=
      if idead then "deadly"
      else if baseScore < 40 then "reckless"
      else if 60 ≤ baseScore then "cautious"
      else "neutral" }

/-- `previous_poor_choices`: the count of history entries with score `< 30`
(`sum(1 for choice in player_history if choice.get("score", 50) < 30)`). -/
def priorPoorCount (historyScores : List Int) : Nat :=
  historyScores.countP (fun s => s < 30)

/-- `analyze_answer_with_death_check`: on oracle success the parsed analysis is
validated and returned; on any oracle failure (exception, no JSON object in the
reply) the fallback analysis runs on the same answer, risk and poor-choice
count. -/
def analyzeAnswerWithDeathCheck (oracle : Option ParsedAnalysis) (answer : String)
    (risk : DeathRisk) (historyScores : List Int) : Analysis :=
  match oracle with
  | some p => validateAnalysis p
  | none => fallbackDeathAnalysis answer risk (priorPoorCount historyScores)

/-! ### `AIService._analyze_choice_pattern` -/

/-- `_analyze_choice_pattern`, on the scores of the player's choices
(`choice.get("score", 50)` projected out). The float average `sum / len` of
integers is modelled exactly as a rational. -/
def analyzeChoicePattern (scores : List Int) : String :=
  if scores.isEmpty then "new_player"
  else
    let avgScore : ℚ := (scores.sum : ℚ) / (scores.length : ℚ)
    let poorChoices := scores.countP (fun s => s < 30)
    if 2 ≤ poorChoices then "consistently_reckless"
    else if 70 ≤ avgScore then "cautious_survivor"
    else if 50 ≤ avgScore then "mixed_decisions"
    else "poor_judgment"

/-! ### `AIService.generate_initial_scenario` and its fallback -/

/-- One entry of a scenario's `branching_paths` array. -/
structure BranchingPath where
  action_type : String
  description : String
  deriving DecidableEq, Repr

/-- A scenario object as the routes consume it. On the oracle path this is the
JSON object parsed out of the reply; `generate_initial_scenario` returns it
verbatim, without validating any field. -/
structure Scenario where
  question_number : Nat
  title : String
  description : String
  survival_factors : List String
  story_context : String
  branching_paths : List BranchingPath
  deriving DecidableEq, Repr

/-- The canned `"haunted_house"` scenario of `_get_fallback_initial_scenario`. -/
def hauntedHouseFallback : Scenario :=
  { question_number := 1
    title := "The Inheritance"
    description := "You've inherited your great aunt's Victorian mansion. As you step inside for the first time, the heavy door slams shut behind you. The key that worked moments ago now refuses to turn. Through dusty windows, you see your car, but the door won't budge. The house feels unnaturally cold, and you hear slow footsteps on the wooden floors above, though you came here alone. What do you do?"
    survival_factors := ["logical_thinking", "caution", "investigation"]
    story_context := "Trapped in an inherited haunted mansion"
    branching_paths :=
      [{ action_type := "cautious", description := "Carefully investigate your surroundings" },
       { action_type := "aggressive", description := "Force your way out immediately" },
       { action_type := "escape", description := "Look for alternative exits" }] }

/-- The `scenarios` dictionary of `_get_fallback_initial_scenario`: its only
key is `"haunted_house"`. -/
def fallbackInitialScenarios : List (String × Scenario) :=
  [("haunted_house", hauntedHouseFallback)]

/-- `_get_fallback_initial_scenario`:
`scenarios.get(theme, scenarios["haunted_house"])`. -/
def getFallbackInitialScenario (theme : String) : Scenario :=
  ((fallbackInitialScenarios.find? (fun kv => kv.1 = theme)).map Prod.snd).getD
    hauntedHouseFallback

/-- `generate_initial_scenario`: `oracle = some s` is a successful LLM call
whose reply contained a JSON object parsing to `s` — the parsed scenario is
returned as-is; `oracle = none` is any exception or a reply with no JSON
object, caught by the blanket `except`, which returns the canned fallback.
The function is total: no exception escapes it. -/
def generateInitialScenario (oracle : Option Scenario) (theme : String) : Scenario :=
  match oracle with
  | some s => s
  | none => getFallbackInitialScenario theme

/-! ### `AIService.generate_final_results`, `_fallback_results` and
`routes/game.py get_results` -/

/-- One player's aggregated data as `get_results` builds it (the fields the
results code reads: `player_name`, `total_score`, elimination status and
reason). -/
structure PlayerData where
  player_name : String
  total_score : Int
  is_eliminated : Bool
  elimination_reason : String
  deriving DecidableEq, Repr

/-- A fully populated final-results entry (the six required fields). -/
structure ResultEntry where
  player_name : String
  rank : Int
  survived : Bool
  fate_title : String
  narrative : String
  survival_analysis : String
  deriving DecidableEq, Repr

/-- A results entry as parsed from the oracle's JSON (any key may be absent). -/
structure RawResult where
  player_name : Option String
  rank : Option Int
  survived : Option Bool
  fate_title : Option String
  narrative : Option String
  survival_analysis : Option String
  deriving DecidableEq, Repr

/-- The per-entry validation loop of `generate_final_results`
(`result.get(key, default)` for each of the six required fields). -/
def validateResult (r : RawResult) : ResultEntry :=
  { player_name := r.player_name.getD "Unknown"
    rank := r.rank.getD 1
    survived := r.survived.getD false
    fate_title := r.fate_title.getD "Unknown Fate"
    narrative := r.narrative.getD "No story available"
    survival_analysis := r.survival_analysis.getD "No analysis available" }

/-- `['poor', 'below average', 'average'][min(2, max(0, total_score // 30))]`
(`//` is Python floor division; the index provably lies in `[0, 2]`, so the
`getD` default is never used). -/
def scoreQualityWord (totalScore : Int) : String :=
  ["poor", "below average", "average"].getD (min 2 (max 0 (Int.fdiv totalScore 30))).toNat ""

/-- The entry `_fallback_results` builds for the player at position `i`
(`rank = i + 1`, `survived = (i == 0)`). -/
def mkFallbackEntry (i : Nat) (p : PlayerData) : ResultEntry :=
  let rank : Int := (i : Int) + 1
  if i = 0 then
    { player_name := p.player_name
      rank := rank
      survived := true
      fate_title := "🎉 SOLE SURVIVOR"
      narrative := "Your strategic thinking and careful decision-making kept you alive when others perished. Every choice you made showed wisdom and survival instinct."
      survival_analysis := "With a total score of " ++ toString p.total_score ++ ", you demonstrated exceptional survival instincts and logical decision-making under pressure." }
  else
    { player_name := p.player_name
      rank := rank
      survived := false
      fate_title := "💀 VICTIM #" ++ toString rank
      narrative :=
        if rank = 2 then
          "You came close to survival, but a few critical mistakes cost you dearly. Your decision-making showed promise but lacked consistency when it mattered most."
        else
          "Your impulsive decisions and poor risk assessment led to an early demise. In horror scenarios, hesitation and planning often mean the difference between life and death."
      survival_analysis := "Your total score of " ++ toString p.total_score ++ " indicates " ++ scoreQualityWord p.total_score ++ " decision-making under pressure." }

/-- The `for i, player in enumerate(sorted_players)` loop of
`_fallback_results`, with `i` starting at the given index. -/
def fallbackResultsFrom (i : Nat) : List PlayerData → List ResultEntry
  | [] => []
  | p :: t => mkFallbackEntry i p :: fallbackResultsFrom (i + 1) t

/-- `_fallback_results sorted_players`. -/
def fallbackResults (sortedPlayers : List PlayerData) : List ResultEntry :=
  fallbackResultsFrom 0 sortedPlayers

/-- The sort key of `generate_final_results`:
`sorted(players_data, key=lambda x: x.get('total_score', 0), reverse=True)`,
a stable descending sort on `total_score`. -/
def scoreDescRel (a b : PlayerData) : Prop := b.total_score ≤ a.total_score

instance : DecidableRel scoreDescRel :=
  fun a b => inferInstanceAs (Decidable (b.total_score ≤ a.total_score))

instance : IsTotal PlayerData scoreDescRel :=
  ⟨fun a b => le_total b.total_score a.total_score⟩

instance : IsTrans PlayerData scoreDescRel :=
  ⟨fun _ _ _ h1 h2 => le_trans h2 h1⟩

/-- Stable descending sort by `total_score` (insertion sort is stable, so it
agrees with Python's `sorted(..., reverse=True)`). -/
def sortByScoreDesc (l : List PlayerData) : List PlayerData :=
  List.insertionSort scoreDescRel l

/-- `generate_final_results`: sort the players, then either take the oracle's
validated entries truncated to the player count (when it produced at least
that many), or fall back to `_fallback_results` on the sorted players (when
the oracle failed, produced no JSON array, or produced too few entries). -/
def generateFinalResults (oracle : Option (List RawResult))
    (playersData : List PlayerData) : List ResultEntry :=
  let sortedPlayers := sortByScoreDesc playersData
  match oracle with
  | some raws =>
    let validated := raws.map validateResult
    if sortedPlayers.length ≤ validated.length then validated.take sortedPlayers.length
    else fallbackResults sortedPlayers
  | none => fallbackResults sortedPlayers

/-- A JSON-object entry of the combined results list of `get_results`. The
two shapes that occur (a six-field results entry, and a death narrative) are
both dictionaries, so an entry is a record of optional keys. -/
structure Entry where
  player_name : Option String
  rank : Option Int
  survived : Option Bool
  fate_title : Option String
  narrative : Option String
  survival_analysis : Option String
  eliminated : Option Bool
  death_narrative : Option String
  death_analysis : Option String
  elimination_reason : Option String
  deriving DecidableEq, Repr

/-- A `ResultEntry` as a member of the combined list: the six required keys
are present, the death-narrative keys are absent. -/
def entryOfResult (r : ResultEntry) : Entry :=
  { player_name := some r.player_name
    rank := some r.rank
    survived := some r.survived
    fate_title := some r.fate_title
    narrative := some r.narrative
    survival_analysis := some r.survival_analysis
    eliminated := none
    death_narrative := none
    death_analysis := none
    elimination_reason := none }

/-- The dictionary that `get_results` appends for an eliminated player when
`generate_death_narrative` fails (the inner `except` at lines 443-451): it
has `player_name`, `eliminated`, `death_narrative`, `fate_title` and
`elimination_reason`, and none of `rank`, `survived`, `narrative`,
`survival_analysis`. -/
def innerFallbackDeathEntry (p : PlayerData) : Entry :=
  { player_name := some p.player_name
    rank := none
    survived := none
    fate_title := some "💀 ELIMINATED"
    narrative := none
    survival_analysis := none
    eliminated := some true
    death_narrative := some "Poor decision-making led to their elimination from the game."
    death_analysis := none
    elimination_reason := some p.elimination_reason }

/-- `get_results` for a roster (players in insertion order). `resultsOracle`
is the outcome of the `generate_final_results` oracle call, `deathOracle p`
the outcome of `generate_death_narrative` for eliminated player `p` (`none` =
failure, handled by the inner fallback), and `timedOut` the outer
`asyncio.TimeoutError`/`Exception`, which routes the whole roster — active
players first, then eliminated, unsorted — through `_fallback_results`. -/
def getResults (roster : List PlayerData) (resultsOracle : Option (List RawResult))
    (deathOracle : PlayerData → Option Entry) (timedOut : Bool) : List Entry :=
  let playersData := roster.filter (fun p => !p.is_eliminated)
  let eliminatedData := roster.filter (fun p => p.is_eliminated)
  if timedOut then
    (fallbackResults (playersData ++ eliminatedData)).map entryOfResult
  else
    let survivorResults :=
      if playersData.isEmpty then []
      else generateFinalResults resultsOracle playersData
    let eliminationResults :=
      eliminatedData.map (fun p => (deathOracle p).getD (innerFallbackDeathEntry p))
    eliminationResults ++ survivorResults.map entryOfResult

/-- A syntactically valid oracle reply whose scenario has a one-character
description, a one-character title and no survival factors (used to exhibit
that `generate_initial_scenario` does not validate oracle output). -/
def shortOracleScenario : Scenario :=
  { question_number := 1
    title := "T"
    description := "x"
    survival_factors := []
    story_context := ""
    branching_paths := [] }

/-- An entry carries all six required result fields. -/
def hasSixFields (e : Entry) : Bool :=
  e.player_name.isSome && e.rank.isSome && e.survived.isSome &&
  e.fate_title.isSome && e.narrative.isSome && e.survival_analysis.isSome

/-! ### `routes/game.py submit_answer`: database state and the upsert -/

/-- A `game_sessions` row (the fields `submit_answer` reads). -/
structure SessionRec where
  id : Nat
  session_code : String
  theme : String
  deriving DecidableEq, Repr

/-- A `players` row (the fields `submit_answer` reads). -/
structure PlayerRec where
  id : Nat
  name : String
  session_id : Nat
  deriving DecidableEq, Repr

/-- A `player_answers` row: exactly the mapped columns of
`models/game.py` lines 43-55. The table declares no `is_eliminated` or
`elimination_reason` column; the routes set those two names with `setattr` on
loaded instances, but such attributes are transient — `db.commit()` persists
only mapped columns, so a row freshly queried by a later request never
carries them. -/
structure AnswerRec where
  id : Nat
  session_id : Nat
  player_id : Nat
  question_number : Nat
  answer_text : String
  score : Int
  deriving DecidableEq, Repr

/-- The database state `submit_answer` touches. `nextAnswerId` models the
primary-key autoincrement: rows are appended with strictly growing ids. -/
structure Db where
  sessions : List SessionRec
  players : List PlayerRec
  answers : List AnswerRec
  nextAnswerId : Nat
  deriving DecidableEq, Repr

/-- `db.query(GameSession).filter(session_code == code).first()`. -/
def findSession (db : Db) (code : String) : Option SessionRec :=
  db.sessions.find? (fun s => s.session_code = code)

/-- `db.query(Player).filter(id == pid, session_id == sid).first()`. -/
def findPlayer (db : Db) (pid sid : Nat) : Option PlayerRec :=
  db.players.find? (fun p => p.id = pid && p.session_id = sid)

/-- `db.query(PlayerAnswer).filter(player_id == pid).order_by(id.desc()).first()`:
the player's answer row with the greatest id. -/
def latestAnswerOf (db : Db) (pid : Nat) : Option AnswerRec :=
  (db.answers.filter (fun a => a.player_id = pid)).foldl
    (fun acc a =>
      match acc with
      | none => some a
      | some b => if b.id ≤ a.id then some a else some b)
    none

/-- The elimination gate of `submit_answer` (lines 217-223):
`latest_answer and hasattr(latest_answer, 'is_eliminated') and
latest_answer.is_eliminated`. Because `player_answers` maps no
`is_eliminated` column, a row freshly queried by this request never carries
the attribute: `hasattr` is `False` in both branches, and the gate never
fires. -/
def isEliminatedLatest (db : Db) (pid : Nat) : Bool :=
  match latestAnswerOf db pid with
  | some _ => false
  | none => false

/-- The scores of the player's previous answers, as collected for
`player_history` (only their count below 30 feeds the fallback analysis). -/
def historyScoresOf (db : Db) (pid : Nat) : List Int :=
  (db.answers.filter (fun a => a.player_id = pid)).map AnswerRec.score

/-- The upsert key: `session_id == sid AND player_id == pid AND
question_number == qn`. -/
def answerKey (sid pid qn : Nat) (a : AnswerRec) : Bool :=
  a.session_id = sid && a.player_id = pid && a.question_number = qn

/-- How many answer rows carry the given key. -/
def keyCount (db : Db) (sid pid qn : Nat) : Nat :=
  db.answers.countP (answerKey sid pid qn)

/-- Mutating the single row `query(...).first()` returned: rewrite the first
list element satisfying `p` with `f`, leave the rest untouched. -/
def updateFirst (p : α → Bool) (f : α → α) : List α → List α
  | [] => []
  | a :: t => if p a then f a :: t else a :: updateFirst p f t

/-- A `POST /submit-answer` request body. -/
structure SubmitAnswerRequest where
  session_code : String
  player_id : Nat
  question_number : Nat
  answer_text : String
  deriving DecidableEq, Repr

/-- The errors `submit_answer` can raise: the `HTTPException`s raised
before persisting, and the unhandled `TypeError` (a 500) from
`PlayerAnswer(**answer_data)` when `answer_data` carries the unmapped
`is_eliminated` key (lines 311-315). -/
inductive SubmitErr where
  | sessionNotFound
  | playerNotFound
  | playerEliminated
  | internalTypeError
  deriving DecidableEq, Repr

/-- The response fields of `submit_answer` the claims are about. -/
structure SubmitResponse where
  score : Int
  instant_death : Bool
  deriving DecidableEq, Repr

/-- The analysis `submit_answer` ends up with for a request: the oracle
outcome validated, or `_fallback_death_analysis` on the answer text, the
scenario's risk and the player's prior poor-choice count. -/
def submitAnalysis (db : Db) (req : SubmitAnswerRequest) (risk : DeathRisk)
    (analysisOracle : Option ParsedAnalysis) : Analysis :=
  analyzeAnswerWithDeathCheck analysisOracle req.answer_text risk
    (historyScoresOf db req.player_id)

/-- The `setattr` block of `submit_answer` on an existing row (lines
295-301): `answer_text` and `score` are overwritten and persisted by
`db.commit()`. On instant death the route also sets `is_eliminated` and
`elimination_reason` on the instance, but those names are not mapped columns
of `player_answers`, so the commit discards them: the persisted row keeps
only the two real columns. -/
def overwriteAnswer (req : SubmitAnswerRequest) (analysis : Analysis)
    (a : AnswerRec) : AnswerRec :=
  { a with
    answer_text := req.answer_text
    score := analysis.survival_score }

/-- The `answer_data` dictionary of `submit_answer` turned into a fresh row
— reachable only without instant death: with it, `answer_data` carries the
unmapped `is_eliminated` key and `PlayerAnswer(**answer_data)` raises
`TypeError` before any row exists (see `submitAnswer`). -/
def newAnswerRec (db : Db) (sess : SessionRec) (req : SubmitAnswerRequest)
    (analysis : Analysis) : AnswerRec :=
  { id := db.nextAnswerId
    session_id := sess.id
    player_id := req.player_id
    question_number := req.question_number
    answer_text := req.answer_text
    score := analysis.survival_score }

/-- `submit_answer`. `risk` is the `death_risk_level` of whatever scenario the
scenario stage produced, `analysisOracle` the outcome of the analysis oracle
call (`none` = every failure path, which runs `_fallback_death_analysis`).
An `Except.error` (an `HTTPException`, or the insert path's unhandled
`TypeError`) leaves the database unchanged: every `db.commit()` in the
source happens later, and the `TypeError` fires before `db.add`. The
elimination gate sits before the analysis inputs are consumed, but can never
fire (`player_answers` has no `is_eliminated` column — see
`isEliminatedLatest`). -/
def submitAnswer (db : Db) (req : SubmitAnswerRequest) (risk : DeathRisk)
    (analysisOracle : Option ParsedAnalysis) :
    Except SubmitErr (Db × SubmitResponse) :=
  match findSession db req.session_code with
  | none => .error .sessionNotFound
  | some session =>
    match findPlayer db req.player_id session.id with
    | none => .error .playerNotFound
    | some _player =>
      if isEliminatedLatest db req.player_id then .error .playerEliminated
      else
        let analysis := submitAnalysis db req risk analysisOracle
        match db.answers.find? (answerKey session.id req.player_id req.question_number) with
        | some _ =>
          .ok ({ db with
                  answers := updateFirst
                    (answerKey session.id req.player_id req.question_number)
                    (overwriteAnswer req analysis) db.answers },
               { score := analysis.survival_score, instant_death := analysis.instant_death })
        | none =>
          if analysis.instant_death then
            -- answer_data carries the is_eliminated key, which PlayerAnswer
            -- does not map: PlayerAnswer(**answer_data) raises TypeError and
            -- the request fails with a 500 before any row is created
            .error .internalTypeError
          else
            .ok ({ db with
                    answers := db.answers ++ [newAnswerRec db session req analysis]
                    nextAnswerId := db.nextAnswerId + 1 },
                 { score := analysis.survival_score, instant_death := analysis.instant_death })

/-- One `submit_answer` call as a state transition: a raised `HTTPException`
leaves the database as it was. -/
def applySubmit (db : Db)
    (x : SubmitAnswerRequest × DeathRisk × Option ParsedAnalysis) : Db :=
  match submitAnswer db x.1 x.2.1 x.2.2 with
  | .ok (db', _) => db'
  | .error _ => db

/-- A sequence of `submit_answer` calls. -/
def runSubmits (db : Db)
    (xs : List (SubmitAnswerRequest × DeathRisk × Option ParsedAnalysis)) : Db :=
  xs.foldl applySubmit db

/-! ### `routes/websocket.py ConnectionManager` -/

/-- A websocket connection, identified by a token. -/
abbrev Conn := Nat

/-- `ConnectionManager`: `active_connections: Dict[str, List[WebSocket]]`,
modelled as an association list in insertion order (Python dicts preserve it;
the operations keep keys unique). -/
structure ConnectionManager where
  active_connections : List (String × List Conn)
  deriving DecidableEq, Repr

/-- `self.active_connections[code]` when `code in self.active_connections`. -/
def lookupSession (m : ConnectionManager) (code : String) : Option (List Conn) :=
  (m.active_connections.find? (fun e => e.1 = code)).map Prod.snd

/-- Replace the value stored under an existing key. -/
def setSession (code : String) (conns : List Conn) :
    List (String × List Conn) → List (String × List Conn)
  | [] => []
  | e :: t => if e.1 = code then (code, conns) :: t else e :: setSession code conns t

/-- `del self.active_connections[code]`. -/
def removeSession (code : String) :
    List (String × List Conn) → List (String × List Conn)
  | [] => []
  | e :: t => if e.1 = code then t else e :: removeSession code t

/-- `ConnectionManager.connect` (after the `accept()`): create the session's
list if absent, then append the connection. -/
def connect (m : ConnectionManager) (code : String) (ws : Conn) : ConnectionManager :=
  match lookupSession m code with
  | none => ⟨m.active_connections ++ [(code, [ws])]⟩
  | some conns => ⟨setSession code (conns ++ [ws]) m.active_connections⟩

/-- Python's `list.remove(x)`: drop the first occurrence; `none` models the
`ValueError` raised when `x` is not in the list. -/
def pyListRemove (x : Conn) : List Conn → Option (List Conn)
  | [] => none
  | c :: t => if c = x then some t else (pyListRemove x t).map (c :: ·)

/-- `ConnectionManager.disconnect`: a no-op for an unknown session code, but
`list.remove` on the session's list raises (`Except.error`) when the
connection is not in it; an emptied list deletes the session's entry. -/
def disconnect (m : ConnectionManager) (code : String) (ws : Conn) :
    Except Unit ConnectionManager :=
  match lookupSession m code with
  | none => .ok m
  | some conns =>
    match pyListRemove ws conns with
    | none => .error ()
    | some conns' =>
      if conns'.isEmpty then .ok ⟨removeSession code m.active_connections⟩
      else .ok ⟨setSession code conns' m.active_connections⟩

/-- `ConnectionManager.send_to_session`: iterate over the session's
connections in order and send to each inside `try/except: pass`, so one
failing delivery is skipped and the loop continues. `failing c = true` models
`send_text` raising for connection `c`; the returned list is the sequence of
successful deliveries `(connection, message)`. -/
def sendToSession (m : ConnectionManager) (failing : Conn → Bool)
    (message : String) (code : String) : List (Conn × String) :=
  match lookupSession m code with
  | none => []
  | some conns => (conns.filter (fun c => !failing c)).map (fun c => (c, message))

/-- The answers table after the update branch of `submit_answer` (the first
row matching the key overwritten, everything else untouched). -/
def updatedAnswers (db : Db) (sid : Nat) (req : SubmitAnswerRequest)
    (risk : DeathRisk) (oracle : Option ParsedAnalysis) : List AnswerRec :=
  updateFirst (answerKey sid req.player_id req.question_number)
    (overwriteAnswer req (submitAnalysis db req risk oracle)) db.answers

/-! ### Concrete fixtures used by witnesses -/

/-- A one-session, one-player database whose player has one answer row for
question 1. -/
def dbActive : Db :=
  { sessions := [{ id := 1, session_code := "ABC123", theme := "haunted_house" }]
    players := [{ id := 7, name := "Bob", session_id := 1 }]
    answers := [{ id := 1, session_id := 1, player_id := 7, question_number := 1,
                  answer_text := "run", score := 40 }]
    nextAnswerId := 2 }

/-- `dbActive` after its player resubmits question 1 with an instant-death
answer: only the two mapped columns change (text and score); there is no
elimination column for the commit to persist. -/
def dbAfterDeath : Db :=
  { sessions := [{ id := 1, session_code := "ABC123", theme := "haunted_house" }]
    players := [{ id := 7, name := "Bob", session_id := 1 }]
    answers := [{ id := 1, session_id := 1, player_id := 7, question_number := 1,
                  answer_text := "I panic and scream", score := 30 }]
    nextAnswerId := 2 }

/-- A two-player roster (scores 10 and 50, both active) on which the outer
`get_results` fallback ranks the lower-scoring player first. -/
def rosterAB : List PlayerData :=
  [{ player_name := "A", total_score := 10, is_eliminated := false,
     elimination_reason := "Poor survival choices" },
   { player_name := "B", total_score := 50, is_eliminated := false,
     elimination_reason := "Poor survival choices" }]

/-- A roster holding a single eliminated player. -/
def rosterElim : List PlayerData :=
  [{ player_name := "Alice", total_score := 40, is_eliminated := true,
     elimination_reason := "Poor survival choices" }]

/-! ## Helper lemmas -/

/-- The float comparisons `avg_score >= 70` / `avg_score >= 50` on a positive
denominator are exactly the integer comparisons `70 * len ≤ sum` /
`50 * len ≤ sum`, which lets the classifier be evaluated without rational
division. -/
theorem analyzeChoicePattern_eq (scores : List Int) :
    analyzeChoicePattern scores =
      if scores.isEmpty then "new_player"
      else if 2 ≤ scores.countP (fun s => s < 30) then "consistently_reckless"
      else if (70 : Int) * scores.length ≤ scores.sum then "cautious_survivor"
      else if (50 : Int) * scores.length ≤ scores.sum then "mixed_decisions"
      else "poor_judgment" := by
  unfold analyzeChoicePattern
  cases h : scores.isEmpty with
  | true => simp [h]
  | false =>
    have hne : scores ≠ [] := by simpa [List.isEmpty_iff] using h
    have hlen : 0 < (scores.length : ℚ) := by
      exact_mod_cast Nat.cast_pos.mpr (List.length_pos.mpr hne)
    have h70 : ((70 : ℚ) ≤ (scores.sum : ℚ) / (scores.length : ℚ)) ↔
        ((70 : Int) * scores.length ≤ scores.sum) := by
      rw [le_div_iff₀ hlen]
      constructor <;> intro hh <;> exact_mod_cast hh
    have h50 : ((50 : ℚ) ≤ (scores.sum : ℚ) / (scores.length : ℚ)) ↔
        ((50 : Int) * scores.length ≤ scores.sum) := by
      rw [le_div_iff₀ hlen]
      constructor <;> intro hh <;> exact_mod_cast hh
    simp only [h, Bool.false_eq_true, if_false, h70, h50]

/-- The elimination gate evaluates to `false` on every database state: no
persisted `player_answers` row can carry the unmapped `is_eliminated`
attribute. -/
theorem isEliminatedLatest_eq_false (db : Db) (pid : Nat) :
    isEliminatedLatest db pid = false := by
  unfold isEliminatedLatest
  cases latestAnswerOf db pid <;> rfl

/-! ## Claim C1: the instant-death decision -/

/-- C1 counterexample: a successful oracle call whose JSON carries
`survival_score = 35, instant_death = false`, in a scenario with
`death_risk_level = "instant"` and no prior poor choices, yields an evaluation
with score 35 and `instant_death = false` — although rule 1 of the claimed
table (`risk = instant`, `score = 35 < 40`) demands `true`. The table is not
applied on the oracle path. -/
theorem c1_table_oracle_counterexample :
    (analyzeAnswerWithDeathCheck (some ⟨some 35, some false, none, none⟩)
        "I hide" DeathRisk.instant []).survival_score = 35
    ∧ (analyzeAnswerWithDeathCheck (some ⟨some 35, some false, none, none⟩)
        "I hide" DeathRisk.instant []).instant_death = false
    ∧ fallbackInstantDeath DeathRisk.instant (priorPoorCount []) 35 = true := by
  decide

/-- C1 (amended): on the fallback path `instant_death` is decided exactly by
the three-rule table in the stated priority order (equivalently, the
disjunction of the three rules, since each rule yields `true`), evaluated on
the fallback score; the claim's three example rows hold for that table. On
the oracle path, however, `instant_death` is taken verbatim from the oracle's
parsed output, defaulting to `false` when the key is absent — the table is
not re-applied there. -/
theorem c1_instant_death_decision (p : ParsedAnalysis) (answer : String)
    (risk : DeathRisk) (historyScores : List Int) :
    ((analyzeAnswerWithDeathCheck none answer risk historyScores).instant_death = true ↔
      ((risk = DeathRisk.instant ∧ fallbackScore answer < 40)
        ∨ (risk = DeathRisk.high ∧ 2 ≤ priorPoorCount historyScores ∧
            fallbackScore answer < 30)
        ∨ (3 ≤ priorPoorCount historyScores ∧ fallbackScore answer < 25)))
    ∧ (analyzeAnswerWithDeathCheck none answer risk historyScores).survival_score
        = fallbackScore answer
    ∧ (analyzeAnswerWithDeathCheck (some p) answer risk historyScores).instant_death
        = p.instant_death.getD false
    ∧ (∀ priorPoor : Nat, fallbackInstantDeath DeathRisk.instant priorPoor 35 = true)
    ∧ fallbackInstantDeath DeathRisk.medium 4 20 = true
    ∧ fallbackInstantDeath DeathRisk.low 5 50 = false := by
  refine ⟨?_, rfl, rfl, ?_, by decide, by decide⟩
  · show fallbackInstantDeath risk (priorPoorCount historyScores) (fallbackScore answer)
        = true ↔ _
    unfold fallbackInstantDeath
    split_ifs with h1 h2 h3 <;>
      simp_all [Bool.and_eq_true, decide_eq_true_eq]
  · intro priorPoor
    simp [fallbackInstantDeath]

/-! ## Claim C2: the fallback scorer -/

/-- C2 counterexample: the claim's own example input scores 80, not 95 (the
code awards +10, not +15, per cautious keyword, and `carefully`, `quietly`,
`observe` are its only hits here). -/
theorem c2_scorer_counterexample :
    fallbackScore "I carefully and quietly observe the room" = 80
    ∧ (80 : Int) ≠ 95 := by
  decide

/-- C2 (amended): for every answer text, the fallback scorer computes
base 50, +10 for each distinct case-insensitive substring match from the
cautious list {carefully, slowly, quietly, observe, listen, plan, strategy,
safe, caution}, −10 for each distinct match from the reckless list {run,
charge, attack, rush, fast, immediately, grab, fight, scream, panic}, clamped
into [0, 100] — there are no other tiers and no length or question-mark
bonuses. The example input scores 80. -/
theorem c2_fallback_scorer (answer : String) :
    fallbackScore answer =
      max 0 (min 100 (50
        + 10 * ((cautiousKeywords.countP (fun w => containsSub (pyLower answer) w.data) : Int))
        - 10 * ((recklessKeywords.countP (fun w => containsSub (pyLower answer) w.data) : Int))))
    ∧ fallbackScore "I carefully and quietly observe the room" = 80 := by
  constructor
  · simp [fallbackScore, keywordScore, List.countP_eq_length_filter]
  · decide

/-! ## Claim C3: the choice-pattern classifier -/

/-- C3: the classifier returns `new_player` on the empty history;
`consistently_reckless` as soon as at least two entries score below 30 (this
check precedes the averaging); otherwise `cautious_survivor` when the average
is at least 70 (`70 * n ≤ sum` is exactly `sum / n ≥ 70`), `mixed_decisions`
when it is at least 50, and `poor_judgment` below that — including the
claim's three examples. -/
theorem c3_choice_pattern (scores : List Int) :
    analyzeChoicePattern scores =
      (if scores.isEmpty then "new_player"
       else if 2 ≤ scores.countP (fun s => s < 30) then "consistently_reckless"
       else if (70 : Int) * scores.length ≤ scores.sum then "cautious_survivor"
       else if (50 : Int) * scores.length ≤ scores.sum then "mixed_decisions"
       else "poor_judgment")
    ∧ analyzeChoicePattern [] = "new_player"
    ∧ analyzeChoicePattern [10, 20] = "consistently_reckless"
    ∧ analyzeChoicePattern [80, 90] = "cautious_survivor" :=
  ⟨analyzeChoicePattern_eq scores,
   by rw [analyzeChoicePattern_eq]; decide,
   by rw [analyzeChoicePattern_eq]; decide,
   by rw [analyzeChoicePattern_eq]; decide⟩

/-! ## Claim C5: initial-scenario generation -/

/-- C5 counterexample: when the oracle succeeds, the parsed scenario is
returned verbatim with no validation: a successful reply with a one-character
description and an empty `survival_factors` list is passed straight through,
violating the claimed `description length ≥ 50` and non-empty-factors
guarantees. -/
theorem c5_no_validation_counterexample :
    (generateInitialScenario (some shortOracleScenario) "haunted_house").description.length = 1
    ∧ (generateInitialScenario (some shortOracleScenario) "haunted_house").survival_factors
        = [] := by
  decide

set_option maxRecDepth 4096 in
/-- C5 (amended): `generate_initial_scenario` never raises past its caller
and always returns a scenario — but it performs no validation: on oracle
success the parsed scenario is returned verbatim, whatever its field lengths;
on any oracle error, timeout or malformed output it returns the canned
fallback initial scenario for the theme (which itself does satisfy
description length ≥ 50, title length ≥ 3 and a non-empty
`survival_factors`). -/
theorem c5_initial_scenario_total (oracle : Option Scenario) (theme : String) :
    (∀ s : Scenario, oracle = some s → generateInitialScenario oracle theme = s)
    ∧ (oracle = none → generateInitialScenario oracle theme = getFallbackInitialScenario theme)
    ∧ 50 ≤ (getFallbackInitialScenario theme).description.length
    ∧ 3 ≤ (getFallbackInitialScenario theme).title.length
    ∧ (getFallbackInitialScenario theme).survival_factors ≠ [] := by
  have hfb : getFallbackInitialScenario theme = hauntedHouseFallback := by
    by_cases h : ("haunted_house" : String) = theme <;>
      simp [getFallbackInitialScenario, fallbackInitialScenarios, List.find?, h]
  refine ⟨?_, ?_, ?_, ?_, ?_⟩
  · rintro s rfl; rfl
  · rintro rfl; rfl
  · rw [hfb]; decide
  · rw [hfb]; decide
  · rw [hfb]; decide

/-- C5 witness: the two branches of `c5_initial_scenario_total` at concrete
inputs. -/
theorem c5_initial_scenario_total_witness :
    generateInitialScenario (some hauntedHouseFallback) "zombie_outbreak" = hauntedHouseFallback
    ∧ generateInitialScenario none "zombie_outbreak" =
        getFallbackInitialScenario "zombie_outbreak" :=
  ⟨(c5_initial_scenario_total (some hauntedHouseFallback) "zombie_outbreak").1
      hauntedHouseFallback rfl,
   (c5_initial_scenario_total none "zombie_outbreak").2.1 rfl⟩

/-! ## Claims C8 and C10: the websocket ConnectionManager -/

/-- Python's `list.remove` raises (`none`) exactly when the element does not
occur in the list. -/
theorem pyListRemove_eq_none_iff (x : Conn) (l : List Conn) :
    pyListRemove x l = none ↔ x ∉ l := by
  induction l with
  | nil => simp [pyListRemove]
  | cons c t ih =>
    simp only [pyListRemove, List.mem_cons]
    by_cases h : c = x
    · simp [h]
    · simp only [if_neg h, Option.map_eq_none', ih]
      constructor
      · intro hn hmem
        rcases hmem with rfl | hm
        · exact h rfl
        · exact hn hm
      · intro hn hm
        exact hn (Or.inr hm)

/-- C8: `send_to_session` delivers the message verbatim to every connection
currently in the session's list whose send does not fail — the originator
included, since the loop runs over the whole list; the delivered sequence is
exactly the non-failing connections in list order, so one failing delivery
never aborts the rest; and the claim's concrete scenario plays out as stated:
after `connect S a` and `connect S b` a broadcast reaches both `a` and `b`,
after `disconnect S a` only `b` receives, and with `a` failing `b` still
receives. -/
theorem c8_broadcast_delivery (m : ConnectionManager) (code : String) (msg : String)
    (failing : Conn → Bool) (conns : List Conn) (c : Conn)
    (hl : lookupSession m code = some conns) (hc : c ∈ conns)
    (hf : failing c = false) :
    (c, msg) ∈ sendToSession m failing msg code
    ∧ sendToSession m failing msg code
        = (conns.filter (fun x => !failing x)).map (fun x => (x, msg))
    ∧ sendToSession (connect (connect ⟨[]⟩ "S" 0) "S" 1) (fun _ => false) "m" "S"
        = [(0, "m"), (1, "m")]
    ∧ disconnect (connect (connect ⟨[]⟩ "S" 0) "S" 1) "S" 0 = .ok ⟨[("S", [1])]⟩
    ∧ sendToSession ⟨[("S", [1])]⟩ (fun _ => false) "m" "S" = [(1, "m")]
    ∧ sendToSession (connect (connect ⟨[]⟩ "S" 0) "S" 1) (fun x => x = 0) "m" "S"
        = [(1, "m")] := by
  refine ⟨?_, ?_, by decide, rfl, by decide, by decide⟩
  · simp only [sendToSession, hl]
    exact List.mem_map_of_mem _ (List.mem_filter.mpr ⟨hc, by simp [hf]⟩)
  · simp only [sendToSession, hl]

/-- C8 witness: a concrete hub in which connection 0 fails and connection 1
still receives the broadcast. -/
theorem c8_broadcast_delivery_witness :
    (1, "m") ∈ sendToSession ⟨[("S", [0, 1])]⟩ (fun x => x = 0) "m" "S" :=
  (c8_broadcast_delivery ⟨[("S", [0, 1])]⟩ "S" "m" (fun x => x = 0) [0, 1] 1
    rfl (by decide) (by decide)).1

/-- C10: `disconnect` is not total on its public interface: for a session
code absent from the mapping it is a silent no-op, but for a present session
whose connection list does not contain the websocket, `list.remove` raises. -/
theorem c10_disconnect_partiality :
    (∀ (m : ConnectionManager) (code : String) (ws : Conn),
      lookupSession m code = none → disconnect m code ws = .ok m)
    ∧ (∀ (m : ConnectionManager) (code : String) (ws : Conn) (conns : List Conn),
      lookupSession m code = some conns → ws ∉ conns →
        disconnect m code ws = .error ()) := by
  constructor
  · intro m code ws h
    simp [disconnect, h]
  · intro m code ws conns h hmem
    simp [disconnect, h, (pyListRemove_eq_none_iff ws conns).mpr hmem]

/-- C10 witness: both branches at concrete hubs. -/
theorem c10_disconnect_partiality_witness :
    disconnect ⟨[]⟩ "S" 0 = .ok ⟨[]⟩
    ∧ disconnect ⟨[("S", [1])]⟩ "S" 0 = .error () :=
  ⟨c10_disconnect_partiality.1 ⟨[]⟩ "S" 0 rfl,
   c10_disconnect_partiality.2 ⟨[("S", [1])]⟩ "S" 0 [1] rfl (by decide)⟩

/-! ## Claim C4: the elimination gate (code bug) -/

/-- C4 (code bug): the elimination gate of `submit_answer` can never fire,
because `player_answers` maps no `is_eliminated` column — the `setattr` on an
existing row is transient and the flagged insert raises `TypeError` before
any row exists — so no recorded answer ever carries the flag (conjunct 1).
Concretely: the player of `dbActive` resubmits question 1 with an
instant-death answer — the response reports `instant_death = true`, but the
persisted row keeps only the new text and score (`dbAfterDeath`); their next
submission, for question 2, is then accepted and appends a second scored row,
and the gate still sees no elimination — where the claim (and the code's own
gate, response fields and `/check-elimination` endpoint) demand a dedicated
rejection before scoring with no row created. -/
theorem c4_elimination_not_persisted :
    (∀ (db : Db) (pid : Nat), isEliminatedLatest db pid = false)
    ∧ (submitAnswer dbActive ⟨"ABC123", 7, 1, "I panic and scream"⟩ DeathRisk.instant
        none).toOption.map (fun x => (x.2.instant_death, x.1))
      = some (true, dbAfterDeath)
    ∧ (submitAnswer dbAfterDeath ⟨"ABC123", 7, 2, "I hide"⟩ DeathRisk.medium
        none).toOption.map (fun x => (x.2.instant_death, x.1.answers.length))
      = some (false, 2)
    ∧ isEliminatedLatest dbAfterDeath 7 = false :=
  ⟨isEliminatedLatest_eq_false, by decide, by decide, by decide⟩

/-! ## Claim C9: idempotent resubmission -/

/-- `updateFirst` preserves the length of the list. -/
theorem length_updateFirst (p : α → Bool) (f : α → α) (l : List α) :
    (updateFirst p f l).length = l.length := by
  induction l with
  | nil => rfl
  | cons a t ih => by_cases h : p a = true <;> simp [updateFirst, h, ih]

/-- When `f` keeps the predicate, `updateFirst` preserves the match count. -/
theorem countP_updateFirst (p : α → Bool) (f : α → α) (l : List α)
    (hf : ∀ a, p a = true → p (f a) = true) :
    (updateFirst p f l).countP p = l.countP p := by
  induction l with
  | nil => rfl
  | cons a t ih =>
    by_cases h : p a = true
    · simp [updateFirst, h, List.countP_cons, hf a h]
    · simp [updateFirst, h, List.countP_cons, ih]

/-- With exactly one match in the list, the matches of the rewritten list are
the images under `f` of the original matches. -/
theorem filter_updateFirst_one (p : α → Bool) (f : α → α) (l : List α)
    (hf : ∀ a, p a = true → p (f a) = true)
    (h1 : l.countP p = 1) :
    (updateFirst p f l).filter p = (l.filter p).map f := by
  induction l with
  | nil => rfl
  | cons a t ih =>
    by_cases h : p a = true
    · have ht : t.countP p = 0 := by
        have h2 := h1
        rw [List.countP_cons, if_pos h] at h2
        omega
      have htf : t.filter p = [] := by
        rw [← List.length_eq_zero, ← List.countP_eq_length_filter]
        exact ht
      simp [updateFirst, h, List.filter_cons, hf a h, htf]
    · have h1' : t.countP p = 1 := by simpa [List.countP_cons, h] using h1
      simp [updateFirst, h, List.filter_cons, ih h1']

/-- A positive match count yields a found row. -/
theorem find?_some_of_countP_pos (p : α → Bool) (l : List α)
    (h : 0 < l.countP p) : ∃ a, l.find? p = some a :=
  Option.isSome_iff_exists.mp (List.find?_isSome.mpr (List.countP_pos_iff.mp h))

/-- The overwrite of `submit_answer` does not change the row's key fields. -/
theorem answerKey_overwriteAnswer (sid pid qn : Nat) (req : SubmitAnswerRequest)
    (analysis : Analysis) (a : AnswerRec)
    (h : answerKey sid pid qn a = true) :
    answerKey sid pid qn (overwriteAnswer req analysis a) = true := h

/-- The update branch of `submit_answer`: with the session found, the player
found and not eliminated, and an existing row for the key, the call succeeds
and rewrites exactly the first matching row with the overwrite. -/
theorem submitAnswer_update (db : Db) (req : SubmitAnswerRequest)
    (risk : DeathRisk) (oracle : Option ParsedAnalysis)
    (sess : SessionRec) (pl : PlayerRec) (a₀ : AnswerRec)
    (hs : findSession db req.session_code = some sess)
    (hp : findPlayer db req.player_id sess.id = some pl)
    (helim : isEliminatedLatest db req.player_id = false)
    (hk : db.answers.find? (answerKey sess.id req.player_id req.question_number)
      = some a₀) :
    submitAnswer db req risk oracle =
      .ok ({ db with answers := updatedAnswers db sess.id req risk oracle },
           { score := (submitAnalysis db req risk oracle).survival_score
             instant_death := (submitAnalysis db req risk oracle).instant_death }) := by
  simp [submitAnswer, updatedAnswers, hs, hp, helim, hk]

/-- One resubmission for a key with exactly one existing row keeps the row
count for that key at one and keeps the session and player tables intact. -/
theorem applySubmit_key_invariant (db : Db) (req : SubmitAnswerRequest)
    (risk : DeathRisk) (oracle : Option ParsedAnalysis) (sess : SessionRec)
    (hs : findSession db req.session_code = some sess)
    (h1 : keyCount db sess.id req.player_id req.question_number = 1) :
    keyCount (applySubmit db (req, risk, oracle)) sess.id req.player_id
        req.question_number = 1
    ∧ (applySubmit db (req, risk, oracle)).sessions = db.sessions := by
  rcases hp : findPlayer db req.player_id sess.id with _ | pl
  · have h : applySubmit db (req, risk, oracle) = db := by
      simp [applySubmit, submitAnswer, hs, hp]
    rw [h]
    exact ⟨h1, rfl⟩
  · have helim' : isEliminatedLatest db req.player_id = false :=
      isEliminatedLatest_eq_false db req.player_id
    obtain ⟨a₀, hk⟩ := find?_some_of_countP_pos
      (answerKey sess.id req.player_id req.question_number) db.answers
      (by simp only [keyCount] at h1; omega)
    have hupd := submitAnswer_update db req risk oracle sess pl a₀ hs hp helim' hk
    have happ : applySubmit db (req, risk, oracle) =
        { db with answers := updatedAnswers db sess.id req risk oracle } := by
      simp [applySubmit, hupd]
    rw [happ]
    refine ⟨?_, rfl⟩
    show (updatedAnswers db sess.id req risk oracle).countP _ = 1
    rw [updatedAnswers, countP_updateFirst _ _ _
      (answerKey_overwriteAnswer sess.id req.player_id req.question_number req
        (submitAnalysis db req risk oracle))]
    exact h1

/-- Any number of resubmissions of the same request (with varying scenario
risks and oracle outcomes) keeps exactly one row for the key. -/
theorem runSubmits_keyCount (req : SubmitAnswerRequest) (sess : SessionRec)
    (ros : List (DeathRisk × Option ParsedAnalysis)) :
    ∀ db : Db, findSession db req.session_code = some sess →
      keyCount db sess.id req.player_id req.question_number = 1 →
      keyCount (runSubmits db (ros.map (fun ro => (req, ro.1, ro.2))))
        sess.id req.player_id req.question_number = 1 := by
  induction ros with
  | nil => intro db _ h1; exact h1
  | cons ro t ih =>
    intro db hs h1
    have step := applySubmit_key_invariant db req ro.1 ro.2 sess hs h1
    have hs' : findSession (applySubmit db (req, ro.1, ro.2)) req.session_code
        = some sess := by
      rw [findSession, step.2]
      exact hs
    simp only [List.map_cons, runSubmits, List.foldl_cons]
    exact ih (applySubmit db (req, ro.1, ro.2)) hs' step.1

/-- C9: while the player is still active and exactly one `PlayerAnswer` row
exists for `(session, player, question_number)`, submitting again for the
same key overwrites that row's `answer_text` and `score` in place — the row
count for the key stays one, no row is added — and over any number of further
resubmissions of the same request the key's row count remains exactly one. -/
theorem c9_resubmission_idempotent (db : Db) (req : SubmitAnswerRequest)
    (risk : DeathRisk) (oracle : Option ParsedAnalysis)
    (sess : SessionRec) (pl : PlayerRec)
    (ros : List (DeathRisk × Option ParsedAnalysis))
    (hs : findSession db req.session_code = some sess)
    (hp : findPlayer db req.player_id sess.id = some pl)
    (helim : isEliminatedLatest db req.player_id = false)
    (h1 : keyCount db sess.id req.player_id req.question_number = 1) :
    ((applySubmit db (req, risk, oracle)).answers.filter
        (answerKey sess.id req.player_id req.question_number)).map
        (fun a => (a.answer_text, a.score))
      = [(req.answer_text, (submitAnalysis db req risk oracle).survival_score)]
    ∧ (applySubmit db (req, risk, oracle)).answers.length = db.answers.length
    ∧ keyCount (applySubmit db (req, risk, oracle)) sess.id req.player_id
        req.question_number = 1
    ∧ keyCount (runSubmits db (ros.map (fun ro => (req, ro.1, ro.2))))
        sess.id req.player_id req.question_number = 1 := by
  obtain ⟨a₀, hk⟩ := find?_some_of_countP_pos
    (answerKey sess.id req.player_id req.question_number) db.answers
    (by simp only [keyCount] at h1; omega)
  have hupd := submitAnswer_update db req risk oracle sess pl a₀ hs hp helim hk
  have happ : applySubmit db (req, risk, oracle) =
      { db with answers := updatedAnswers db sess.id req risk oracle } := by
    simp [applySubmit, hupd]
  have hfilter1 : ∃ a, db.answers.filter
      (answerKey sess.id req.player_id req.question_number) = [a] :=
    List.length_eq_one.mp (by rw [← List.countP_eq_length_filter]; exact h1)
  refine ⟨?_, ?_, ?_, ?_⟩
  · rw [happ]
    show ((updatedAnswers db sess.id req risk oracle).filter _).map _ = _
    rw [updatedAnswers, filter_updateFirst_one _ _ _
      (answerKey_overwriteAnswer sess.id req.player_id req.question_number req
        (submitAnalysis db req risk oracle)) h1]
    obtain ⟨a, ha⟩ := hfilter1
    rw [ha]
    rfl
  · rw [happ]
    show (updatedAnswers db sess.id req risk oracle).length = _
    rw [updatedAnswers]
    exact length_updateFirst _ _ db.answers
  · exact (applySubmit_key_invariant db req risk oracle sess hs h1).1
  · exact runSubmits_keyCount req sess ros db hs h1

/-- C9 witness: the active player of `dbActive` resubmits question 1; the
row count for the key stays one and carries the overwritten text and score. -/
theorem c9_resubmission_idempotent_witness :
    ((applySubmit dbActive (⟨"ABC123", 7, 1, "I plan carefully"⟩, DeathRisk.medium, none)).answers.filter
        (answerKey 1 7 1)).map (fun a => (a.answer_text, a.score))
      = [("I plan carefully",
          (submitAnalysis dbActive ⟨"ABC123", 7, 1, "I plan carefully"⟩ DeathRisk.medium
            none).survival_score)]
    ∧ keyCount (applySubmit dbActive (⟨"ABC123", 7, 1, "I plan carefully"⟩,
        DeathRisk.medium, none)) 1 7 1 = 1 := by
  have h := c9_resubmission_idempotent dbActive ⟨"ABC123", 7, 1, "I plan carefully"⟩
    DeathRisk.medium none
    { id := 1, session_code := "ABC123", theme := "haunted_house" }
    { id := 7, name := "Bob", session_id := 1 }
    [] (by decide) (by decide) (by decide) (by decide)
  exact ⟨h.1, h.2.2.1⟩

/-! ## Claims C6 and C7: final results -/

/-- `_fallback_results` yields one entry per input player. -/
theorem fallbackResultsFrom_length (i : Nat) (l : List PlayerData) :
    (fallbackResultsFrom i l).length = l.length := by
  induction l generalizing i with
  | nil => rfl
  | cons p t ih => simp [fallbackResultsFrom, ih]

/-- The entry at a position of the `_fallback_results` loop. -/
theorem fallbackResultsFrom_getElem? (l : List PlayerData) :
    ∀ i j : Nat, (fallbackResultsFrom i l)[j]? = (l[j]?).map (mkFallbackEntry (i + j)) := by
  induction l with
  | nil => intro i j; simp [fallbackResultsFrom]
  | cons p t ih =>
    intro i j
    cases j with
    | zero => simp [fallbackResultsFrom]
    | succ j' =>
      have harith : (i + 1) + j' = i + (j' + 1) := by omega
      simp only [fallbackResultsFrom, List.getElem?_cons_succ, ih (i + 1) j', harith]

/-- `rank = i + 1` in both branches of the `_fallback_results` entry. -/
theorem mkFallbackEntry_rank (i : Nat) (p : PlayerData) :
    (mkFallbackEntry i p).rank = (i : Int) + 1 := by
  by_cases h : i = 0 <;> simp [mkFallbackEntry, h]

/-- `survived = (i == 0)` in the `_fallback_results` entry. -/
theorem mkFallbackEntry_survived (i : Nat) (p : PlayerData) :
    (mkFallbackEntry i p).survived = decide (i = 0) := by
  by_cases h : i = 0 <;> simp [mkFallbackEntry, h]

/-- The `_fallback_results` entry keeps the player's name. -/
theorem mkFallbackEntry_name (i : Nat) (p : PlayerData) :
    (mkFallbackEntry i p).player_name = p.player_name := by
  by_cases h : i = 0 <;> simp [mkFallbackEntry, h]

/-- `generate_final_results` always returns exactly one entry per player:
the oracle path truncates to the player count (and only runs when it has at
least that many entries), and the fallback produces one entry each. -/
theorem generateFinalResults_length (oracle : Option (List RawResult))
    (players : List PlayerData) :
    (generateFinalResults oracle players).length = players.length := by
  have hlen : (sortByScoreDesc players).length = players.length := by
    simp [sortByScoreDesc]
  cases oracle with
  | none =>
    show (fallbackResults (sortByScoreDesc players)).length = players.length
    rw [fallbackResults, fallbackResultsFrom_length, hlen]
  | some raws =>
    show (if (sortByScoreDesc players).length ≤ (raws.map validateResult).length
        then (raws.map validateResult).take (sortByScoreDesc players).length
        else fallbackResults (sortByScoreDesc players)).length = players.length
    by_cases h : (sortByScoreDesc players).length ≤ (raws.map validateResult).length
    · rw [if_pos h, List.length_take, hlen]
      rw [hlen] at h
      exact Nat.min_eq_left h
    · rw [if_neg h, fallbackResults, fallbackResultsFrom_length, hlen]

/-- Splitting the roster into active and eliminated players loses nobody. -/
theorem length_filter_split (l : List PlayerData) :
    (l.filter (fun p => !p.is_eliminated)).length
      + (l.filter (fun p => p.is_eliminated)).length = l.length := by
  induction l with
  | nil => rfl
  | cons p t ih =>
    by_cases h : p.is_eliminated = true <;>
      simp [List.filter_cons, h] <;> omega

/-- `get_results` returns exactly one entry per roster player on every path. -/
theorem getResults_length (roster : List PlayerData) (ro : Option (List RawResult))
    (dor : PlayerData → Option Entry) (t : Bool) :
    (getResults roster ro dor t).length = roster.length := by
  have hsplit := length_filter_split roster
  cases t with
  | true =>
    show ((fallbackResults ((roster.filter fun p => !p.is_eliminated)
        ++ (roster.filter fun p => p.is_eliminated))).map entryOfResult).length
      = roster.length
    rw [List.length_map, fallbackResults, fallbackResultsFrom_length, List.length_append]
    omega
  | false =>
    have hred : getResults roster ro dor false =
        (roster.filter (fun p => p.is_eliminated)).map
          (fun p => (dor p).getD (innerFallbackDeathEntry p))
        ++ (if (roster.filter (fun p => !p.is_eliminated)).isEmpty then []
            else generateFinalResults ro (roster.filter (fun p => !p.is_eliminated))).map
            entryOfResult := rfl
    rw [hred, List.length_append, List.length_map]
    by_cases hpe : (roster.filter (fun p => !p.is_eliminated)).isEmpty = true
    · have h0 : (roster.filter (fun p => !p.is_eliminated)).length = 0 := by
        simpa [List.isEmpty_iff, List.length_eq_zero] using hpe
      rw [if_pos hpe]
      simp only [List.map_nil, List.length_nil]
      omega
    · rw [if_neg hpe, List.length_map, generateFinalResults_length]
      omega

/-- C6 counterexample: on the oracle path (no outer timeout), the entry
produced for an eliminated player is a death narrative carrying none of
`rank`, `survived`, `narrative`, `survival_analysis` — four of the six
required fields are absent. -/
theorem c6_fields_counterexample :
    (getResults rosterElim none (fun _ => none) false).map
      (fun e => (e.rank, e.survived, e.narrative, e.survival_analysis))
      = [(none, none, none, none)] := by
  decide

/-- C6 (amended): the final results list always contains exactly one entry
per roster player, and all six required fields are populated on the
whole-roster fallback path and in every entry `generate_final_results`
contributes; but an eliminated player's entry on the oracle path is a
death-narrative record — when the narrative oracle fails it carries
`player_name`, `eliminated`, `death_narrative`, `fate_title`,
`elimination_reason` and lacks `rank`, `survived`, `narrative` and
`survival_analysis`. -/
theorem c6_results_shape (roster : List PlayerData)
    (resultsOracle : Option (List RawResult)) (deathOracle : PlayerData → Option Entry)
    (timedOut : Bool) (r : ResultEntry) (p : PlayerData) :
    (getResults roster resultsOracle deathOracle timedOut).length = roster.length
    ∧ (timedOut = true →
        ∀ e ∈ getResults roster resultsOracle deathOracle timedOut, hasSixFields e = true)
    ∧ hasSixFields (entryOfResult r) = true
    ∧ (innerFallbackDeathEntry p).player_name = some p.player_name
    ∧ (innerFallbackDeathEntry p).eliminated = some true
    ∧ (innerFallbackDeathEntry p).death_narrative.isSome = true
    ∧ (innerFallbackDeathEntry p).fate_title.isSome = true
    ∧ (innerFallbackDeathEntry p).elimination_reason = some p.elimination_reason
    ∧ (innerFallbackDeathEntry p).rank = none
    ∧ (innerFallbackDeathEntry p).survived = none
    ∧ (innerFallbackDeathEntry p).narrative = none
    ∧ (innerFallbackDeathEntry p).survival_analysis = none := by
  refine ⟨getResults_length roster resultsOracle deathOracle timedOut, ?_,
    by simp [hasSixFields, entryOfResult], rfl, rfl, rfl, rfl, rfl, rfl, rfl, rfl, rfl⟩
  rintro rfl e he
  simp only [getResults, if_true] at he
  obtain ⟨x, _, rfl⟩ := List.mem_map.mp he
  simp [hasSixFields, entryOfResult]

/-- C6 witness: on a concrete one-player roster the timeout path populates
all six fields of its (sole) entry. -/
theorem c6_results_shape_witness :
    (getResults rosterElim none (fun _ => none) true).all hasSixFields = true :=
  List.all_eq_true.mpr
    ((c6_results_shape rosterElim none (fun _ => none) true
        (validateResult ⟨none, none, none, none, none, none⟩)
        ⟨"X", 0, false, "r"⟩).2.1 rfl)

/-- C7 counterexample: on the outer `get_results` fallback path the roster is
fed to `_fallback_results` unsorted, so with two active players scoring 10
and 50 (in that roster order), rank 1 with `survived = true` goes to the
10-point player, not to the highest scorer. -/
theorem c7_rank_counterexample :
    (getResults rosterAB none (fun _ => none) true).map
      (fun e => (e.player_name, e.rank, e.survived))
      = [(some "A", some 1, some true), (some "B", some 2, some false)]
    ∧ rosterAB.map PlayerData.total_score = [10, 50] := by
  decide

/-- C7 (amended): when `generate_final_results` produces fallback entries, it
first sorts the Active players by `total_score` descending (stably), so the
rank-1 entry is the unique survivor and names the highest-scoring player,
ranks are assigned `1, 2, 3, …` in that sorted order, and the sort is indeed
descending; but the outer `get_results` fallback path skips this sort (see
the counterexample), and on oracle success rank and survived come from the
oracle's output. -/
theorem c7_ranking (playersData : List PlayerData) (q : PlayerData)
    (hq : (sortByScoreDesc playersData).head? = some q) :
    (∀ p ∈ playersData, p.total_score ≤ q.total_score)
    ∧ (fallbackResults (sortByScoreDesc playersData)).head?.map
        (fun e => (e.player_name, e.rank, e.survived))
      = some (q.player_name, 1, true)
    ∧ (∀ j : Nat,
        ((fallbackResults (sortByScoreDesc playersData))[j]?).map
          (fun e => (e.rank, e.survived))
        = ((sortByScoreDesc playersData)[j]?).map
            (fun _ => ((j : Int) + 1, decide (j = 0))))
    ∧ (fallbackResults (sortByScoreDesc playersData)).length = playersData.length
    ∧ List.Pairwise scoreDescRel (sortByScoreDesc playersData) := by
  have hsorted : List.Pairwise scoreDescRel (sortByScoreDesc playersData) :=
    List.sorted_insertionSort scoreDescRel playersData
  have hidx : ∀ j : Nat,
      ((fallbackResults (sortByScoreDesc playersData))[j]?).map
        (fun e => (e.rank, e.survived))
      = ((sortByScoreDesc playersData)[j]?).map
          (fun _ => ((j : Int) + 1, decide (j = 0))) := by
    intro j
    cases hx : (sortByScoreDesc playersData)[j]? with
    | none =>
      simp [fallbackResults, fallbackResultsFrom_getElem?, hx]
    | some pl =>
      simp [fallbackResults, fallbackResultsFrom_getElem?, hx,
        mkFallbackEntry_rank, mkFallbackEntry_survived]
  refine ⟨?_, ?_, hidx, ?_, hsorted⟩
  · intro p hp
    have hmem : p ∈ sortByScoreDesc playersData := by
      simpa [sortByScoreDesc] using hp
    rcases hsort : sortByScoreDesc playersData with _ | ⟨q', t⟩
    · rw [hsort] at hq; exact absurd hq (by simp)
    · rw [hsort] at hq
      have hq' : q' = q := by simpa using hq
      rw [hsort] at hmem hsorted
      rcases List.mem_cons.mp hmem with rfl | hpt
      · rw [hq']
      · have := (List.pairwise_cons.mp hsorted).1 p hpt
        rw [← hq']
        exact this
  · simp only [fallbackResults]
    rw [List.head?_eq_getElem?, fallbackResultsFrom_getElem?,
      ← List.head?_eq_getElem?, hq]
    simp [mkFallbackEntry_rank, mkFallbackEntry_survived, mkFallbackEntry_name]
  · rw [fallbackResults, fallbackResultsFrom_length]
    simp [sortByScoreDesc]

/-- C7 witness: on the concrete two-player roster, sorting puts the 50-point
player "B" first; the fallback entries give them rank 1 and survival. -/
theorem c7_ranking_witness :
    (fallbackResults (sortByScoreDesc rosterAB)).head?.map
      (fun e => (e.player_name, e.rank, e.survived)) = some ("B", 1, true) :=
  (c7_ranking rosterAB
    { player_name := "B", total_score := 50, is_eliminated := false,
      elimination_reason := "Poor survival choices" } (by decide)).2.1

end FrightFate
